import Mathlib

/-!
# Verification of the WebXR input renderer pool manager

Shallow embedding of `InputRenderer` (src/unnamed/part_001): the dynamic
render-object pool and attachment manager for controllers, laser pointers
and cursors.  Scene-graph child bookkeeping (`addNode`) and GPU buffer
contents are out of scope per the specification; a scene-graph node is
modelled by its observable fields (identity, shared mesh reference,
transform, translation, visibility).
-/

namespace InputRendererModel

/-- Modelled from the spec: the scene-graph `Node` class (js/render/core/node)
is not part of the analysed sources.  Per the spec's external-interface
contract a node has a mutable transform, a mutable translation, a mutable
`visible : bool`, and `clone()` deep-copies transform/visibility state while
sharing mesh/material references.  `id` is the object identity (fresh for
every construction or clone); `meshId` stands for the shared
geometry/material reference; `matrix` and `translation` are opaque pose
tokens. -/
structure SGNode where
  id : Nat
  meshId : Nat
  matrix : Nat
  translation : Nat
  visible : Bool
deriving Repr, DecidableEq

/-- Modelled from the spec: `Node.clone()` (not under the analysed sources)
deep-copies transform/visibility state and shares mesh/material references;
the result is a fresh object. -/
def cloneNode (n : SGNode) (freshId : Nat) : SGNode :=
  { n with id := freshId }

/-- The per-key controller record `{ nodes: [...], activeCount: 0 }` built by
`setControllerMesh`.  `recVisible` models the dynamically added `visible`
property that `hideController` writes on the record object itself (absent —
`none` — until written). -/
structure Controller where
  nodes : List SGNode
  activeCount : Nat
  recVisible : Option Bool
deriving Repr, DecidableEq

/-- The `reset` options object `{controllers, lasers, cursors}`. -/
structure ResetOptions where
  controllers : Bool
  lasers : Bool
  cursors : Bool
deriving Repr, DecidableEq

/-- `DEFAULT_RESET_OPTIONS` from the source. -/
def DEFAULT_RESET_OPTIONS : ResetOptions :=
  { controllers := true, lasers := true, cursors := true }

/-- The mutable fields of `InputRenderer`.  `controllers` is the JS object
used as a dictionary (null until first registration), modelled as an
association list keyed by `profile ++ "_" ++ handedness`.  `renderer` is
whether a rendering backend is attached (`_renderer` truthy).  `nextId` is a
ghost supply of fresh object identities for constructed/cloned nodes. -/
structure InputRenderer where
  maxInputElements : Nat
  controllers : Option (List (String × Controller))
  lasers : Option (List SGNode)
  cursors : Option (List SGNode)
  activeControllers : Nat
  activeLasers : Nat
  activeCursors : Nat
  blurred : Bool
  renderer : Bool
  nextId : Nat
deriving Repr, DecidableEq

/-- Dictionary lookup `dict[key]` on the association list. -/
def alLookup (k : String) : List (String × Controller) → Option Controller
  | [] => none
  | (k', c) :: rest => if k' = k then some c else alLookup k rest

/-- Dictionary write `dict[key] = c`: replaces the value in place when the
key exists, otherwise appends the new entry. -/
def alInsert (k : String) (c : Controller) : List (String × Controller) → List (String × Controller)
  | [] => [(k, c)]
  | (k', c') :: rest => if k' = k then (k, c) :: rest else (k', c') :: alInsert k c rest

/-- Map a function over the values of the dictionary (the `for ... in` loop
of `reset` visits every key). -/
def alMapVals (f : Controller → Controller) (d : List (String × Controller)) :
    List (String × Controller) :=
  d.map fun e => (e.1, f e.2)

/-- The `InputRenderer` constructor: capacity 32, all pools null, all active
counters 0, not blurred; `_renderer` is unset (no backend attached). -/
def init : InputRenderer :=
  { maxInputElements := 32
    controllers := none
    lasers := none
    cursors := none
    activeControllers := 0
    activeLasers := 0
    activeCursors := 0
    blurred := false
    renderer := false
    nextId := 0 }

/-- `onRendererChanged`: drops every pool reference and zeroes the active
counters. -/
def onRendererChanged (m : InputRenderer) : InputRenderer :=
  { m with
    controllers := none
    lasers := none
    cursors := none
    activeControllers := 0
    activeLasers := 0
    activeCursors := 0 }

/-- Modelled from the spec: the scene-graph base class wiring that stores the
new backend and invokes the `onRendererChanged` hook on backend attachment
and detachment is not part of the analysed sources; per the spec both
attachment and detachment run the hook. -/
def setRenderer (m : InputRenderer) (r : Bool) : InputRenderer :=
  onRendererChanged { m with renderer := r }

/-- The `visibilitychange` listener registered in `useProfileControllerMeshes`:
`"visible-blurred"` sets the blurred flag, `"visible"` clears it, any other
visibility state leaves it unchanged. -/
def onVisibilityChange (m : InputRenderer) (state : String) : InputRenderer :=
  if state = "visible-blurred" then { m with blurred := true }
  else if state = "visible" then { m with blurred := false }
  else m

/-- `setControllerMesh(controllerNode, handedness, profile)`: creates the
dictionary if null and writes a fresh record `{nodes:[node], activeCount:0}`
at key `profile + "_" + handedness`; the stored node's `visible` is set
false (the source sets it through the shared reference just after
storing). -/
def setControllerMesh (m : InputRenderer) (node : SGNode) (handedness profile : String) :
    InputRenderer :=
  let dict := m.controllers.getD []
  let key := profile ++ "_" ++ handedness
  { m with
    controllers := some (alInsert key
      { nodes := [{ node with visible := false }], activeCount := 0, recVisible := none } dict) }

/-- `addController(gripMatrix, handedness, profile)`, instrumented: returns
the updated state together with the index of the acquired instance in the
key's node list (`none` when the call bailed out before acquiring).  Returns
`.error` exactly where the JS code would throw a `TypeError`
(`controller.nodes[0].clone()` with an empty node list). -/
def addControllerAcq (m : InputRenderer) (grip : Nat) (handedness profile : String) :
    Except String (InputRenderer × Option Nat) :=
  match m.controllers with
  | none => .ok (m, none)
  | some dict =>
    if m.blurred then .ok (m, none)
    else
      let key := profile ++ "_" ++ handedness
      match alLookup key dict with
      | none => .ok (m, none)
      | some c =>
        if h : c.activeCount < c.nodes.length then
          let node := c.nodes.get ⟨c.activeCount, h⟩
          let node' := { node with matrix := grip, visible := true }
          let c' := { c with
            nodes := c.nodes.set c.activeCount node'
            activeCount := (c.activeCount + 1) % m.maxInputElements }
          .ok ({ m with controllers := some (alInsert key c' dict) }, some c.activeCount)
        else
          match c.nodes with
          | [] => .error "TypeError"
          | n0 :: _ =>
            let node' := { cloneNode n0 m.nextId with matrix := grip, visible := true }
            let c' := { c with
              nodes := c.nodes ++ [node']
              activeCount := (c.activeCount + 1) % m.maxInputElements }
            .ok ({ m with
                    controllers := some (alInsert key c' dict)
                    nextId := m.nextId + 1 }, some c.nodes.length)

/-- `addController` proper: the instrumented version with the acquired index
forgotten. -/
def addController (m : InputRenderer) (grip : Nat) (handedness profile : String) :
    Except String InputRenderer :=
  (addControllerAcq m grip handedness profile).map Prod.fst

/-- `hideController(handedness, profile)`: no-op when the dictionary is null
or the key is unregistered; otherwise writes `controller.visible = true` on
the record object. -/
def hideController (m : InputRenderer) (handedness profile : String) : InputRenderer :=
  match m.controllers with
  | none => m
  | some dict =>
    let key := profile ++ "_" ++ handedness
    match alLookup key dict with
    | none => m
    | some c =>
      { m with controllers := some (alInsert key { c with recVisible := some true } dict) }

/-- `_createLaserMesh` / `_createCursorMesh` observable result: one fresh
renderable node holding a fresh mesh/material reference (the GPU buffer and
material construction in the source is backend work, out of scope).  The
initial `visible` flag of a newly constructed node comes from the `Node`
class, modelled from the spec (nodes render unless hidden, so `true`). -/
def freshMesh (freshId : Nat) : SGNode :=
  { id := freshId, meshId := freshId, matrix := 0, translation := 0, visible := true }

/-- The lazy-creation statement block shared by `addLaserPointer` and
`addCursor` (abstracted over which pool field): when the pool is null and
a backend is attached, seed it with one freshly constructed mesh node. -/
def lazyCreate (pool : Option (List SGNode)) (renderer : Bool) (nextId : Nat) :
    Option (List SGNode) × Nat :=
  match pool with
  | none => if renderer then (some [freshMesh nextId], nextId + 1) else (none, nextId)
  | some ls => (some ls, nextId)

/-- The acquisition part of `addLaserPointer` (everything after the
lazy-creation block): acquires the instance at `_activeLasers` or clones
instance 0, always advances `_activeLasers` modulo the capacity, and when
no laser could be produced (null or empty pool) logs and returns after the
counter advance. -/
def laserAcquire (m : InputRenderer) (pose : Nat) : InputRenderer :=
  match m.lasers with
  | none =>
    { m with activeLasers := (m.activeLasers + 1) % m.maxInputElements }
  | some ls =>
    if h : m.activeLasers < ls.length then
      let laser := ls.get ⟨m.activeLasers, h⟩
      let laser' := { laser with matrix := pose, visible := true }
      { m with
        lasers := some (ls.set m.activeLasers laser')
        activeLasers := (m.activeLasers + 1) % m.maxInputElements }
    else
      match ls with
      | [] =>
        { m with activeLasers := (m.activeLasers + 1) % m.maxInputElements }
      | l0 :: _ =>
        let laser' := { cloneNode l0 m.nextId with matrix := pose, visible := true }
        { m with
          lasers := some (ls ++ [laser'])
          activeLasers := (m.activeLasers + 1) % m.maxInputElements
          nextId := m.nextId + 1 }

/-- `addLaserPointer(rigidTransform)`: bails out when blurred, then runs the
lazy-creation block followed by the acquisition block. -/
def addLaserPointer (m : InputRenderer) (pose : Nat) : InputRenderer :=
  if m.blurred then m
  else
    let created := lazyCreate m.lasers m.renderer m.nextId
    laserAcquire { m with lasers := created.1, nextId := created.2 } pose

/-- The acquisition part of `addCursor` (everything after the lazy-creation
block).  Unlike `addLaserPointer` this path is unguarded:
`this._cursors.length` on a null pool and `this._cursors[0].clone()` on an
empty pool throw, which the embedding returns as `.error`. -/
def cursorAcquire (m : InputRenderer) (pos : Nat) : Except String InputRenderer :=
  match m.cursors with
  | none => .error "TypeError"
  | some cs =>
    if h : m.activeCursors < cs.length then
      let cursor := cs.get ⟨m.activeCursors, h⟩
      let cursor' := { cursor with translation := pos, visible := true }
      .ok { m with
        cursors := some (cs.set m.activeCursors cursor')
        activeCursors := (m.activeCursors + 1) % m.maxInputElements }
    else
      match cs with
      | [] => .error "TypeError"
      | c0 :: _ =>
        let cursor' := { cloneNode c0 m.nextId with translation := pos, visible := true }
        .ok { m with
          cursors := some (cs ++ [cursor'])
          activeCursors := (m.activeCursors + 1) % m.maxInputElements
          nextId := m.nextId + 1 }

/-- `addCursor(cursorPos)`: bails out when blurred, then runs the
lazy-creation block followed by the acquisition block. -/
def addCursor (m : InputRenderer) (pos : Nat) : Except String InputRenderer :=
  if m.blurred then .ok m
  else
    let created := lazyCreate m.cursors m.renderer m.nextId
    cursorAcquire { m with cursors := created.1, nextId := created.2 } pos

/-- `node.visible = false`, the `reset` loop body on one node. -/
def hideNode (n : SGNode) : SGNode :=
  { n with visible := false }

/-- The `reset` loop body for one controller record: zeroes `activeCount`
and hides every node. -/
def resetCtrl (c : Controller) : Controller :=
  { c with activeCount := 0, nodes := c.nodes.map hideNode }

/-- First statement block of `reset`: when the controller dictionary exists
and `options.controllers` is set, every record is reset. -/
def resetControllersPart (opts : ResetOptions) (m : InputRenderer) : InputRenderer :=
  match m.controllers with
  | some dict =>
    if opts.controllers then { m with controllers := some (alMapVals resetCtrl dict) } else m
  | none => m

/-- Second statement block of `reset`: when the laser pool exists and
`options.lasers` is set, every laser is hidden and `_activeLasers` zeroed. -/
def resetLasersPart (opts : ResetOptions) (m : InputRenderer) : InputRenderer :=
  match m.lasers with
  | some ls =>
    if opts.lasers then { m with lasers := some (ls.map hideNode), activeLasers := 0 } else m
  | none => m

/-- Third statement block of `reset`: when the cursor pool exists and
`options.cursors` is set, every cursor is hidden and `_activeCursors`
zeroed. -/
def resetCursorsPart (opts : ResetOptions) (m : InputRenderer) : InputRenderer :=
  match m.cursors with
  | some cs =>
    if opts.cursors then { m with cursors := some (cs.map hideNode), activeCursors := 0 } else m
  | none => m

/-- `reset(options)`: null options mean `DEFAULT_RESET_OPTIONS`; the three
statement blocks run in source order. -/
def reset (m : InputRenderer) (optsIn : Option ResetOptions) : InputRenderer :=
  let opts := optsIn.getD DEFAULT_RESET_OPTIONS
  resetCursorsPart opts (resetLasersPart opts (resetControllersPart opts m))

/-- One externally triggered operation on the manager: mesh registration
(profile resolution completing), the per-frame `show` calls, `reset`,
backend attach/detach, and the session visibility signal. -/
inductive Op where
  | registerMesh (node : SGNode) (handedness profile : String)
  | showController (grip : Nat) (handedness profile : String)
  | hideCtrl (handedness profile : String)
  | showLaser (pose : Nat)
  | showCursor (pos : Nat)
  | resetPools (opts : Option ResetOptions)
  | rendererChange (r : Bool)
  | visibilityChange (state : String)
deriving Repr, DecidableEq

/-- Apply one operation.  The two throwing paths (`addController` with an
empty node list, `addCursor` with a null or empty pool) throw before any
state mutation in the source, so a raised exception leaves the manager
state as it was. -/
def step (m : InputRenderer) : Op → InputRenderer
  | .registerMesh n h p => setControllerMesh m n h p
  | .showController g h p => ((addController m g h p).toOption).getD m
  | .hideCtrl h p => hideController m h p
  | .showLaser pose => addLaserPointer m pose
  | .showCursor pos => ((addCursor m pos).toOption).getD m
  | .resetPools o => reset m o
  | .rendererChange r => setRenderer m r
  | .visibilityChange s => onVisibilityChange m s

/-- Run a sequence of operations from the freshly constructed manager. -/
def run (ops : List Op) : InputRenderer :=
  ops.foldl step init

/-- Erase the record-level `visible` property from one controller record. -/
def eraseCtrl (c : Controller) : Controller :=
  { c with recVisible := none }

/-- The manager state with every record-level `visible` property erased:
the view of the state through everything the rendering path can observe. -/
def eraseRecVis (m : InputRenderer) : InputRenderer :=
  { m with controllers := m.controllers.map (alMapVals eraseCtrl) }

/-- A fresh manager whose controller pool for `profile ++ "_" ++ handedness`
was just seeded with one template by `setControllerMesh`, with the capacity
field set to `M`. -/
def seeded (M : Nat) (n0 : SGNode) (handedness profile : String) : InputRenderer :=
  { setControllerMesh init n0 handedness profile with maxInputElements := M, renderer := true }

/-- Iterate `addController` `k` times with the same grip matrix and key
(an exception would leave the state unchanged). -/
def iterAddController (g : Nat) (handedness profile : String) :
    Nat → InputRenderer → InputRenderer
  | 0, m => m
  | k + 1, m =>
    let mk := iterAddController g handedness profile k m
    ((addController mk g handedness profile).toOption).getD mk

/-- The index (into the key's node list) acquired by the `N`-th
(1-indexed) `addController` call of a uniform call sequence. -/
def nthAcquiredIndex (g : Nat) (handedness profile : String) (m : InputRenderer) (N : Nat) :
    Option Nat :=
  match addControllerAcq (iterAddController g handedness profile (N - 1) m) g handedness profile with
  | .ok r => r.2
  | .error _ => none

/-- Every instance beyond the first shares instance 0's mesh/material
reference (is a structural clone of it). -/
def clonesOfHead : List SGNode → Prop
  | [] => True
  | n0 :: rest => ∀ n ∈ rest, n.meshId = n0.meshId

/-- Pool shape invariant for one controller record: the active cursor is in
range, bounded by the node-list length, the pool is nonempty and all
instances are structural clones of instance 0. -/
def CtrlOk (max : Nat) (c : Controller) : Prop :=
  c.activeCount < max ∧ c.activeCount ≤ c.nodes.length ∧ c.nodes ≠ [] ∧ clonesOfHead c.nodes

/-- The state invariant: capacity is the constructor's 32; every registered
controller record, the laser pool and the cursor pool satisfy the pool
shape invariant; and a missing shared pool with a backend attached implies
its counter is zero (so lazy creation starts a fresh cycle). -/
def Inv (m : InputRenderer) : Prop :=
  m.maxInputElements = 32 ∧
  (∀ d, m.controllers = some d → ∀ e ∈ d, CtrlOk m.maxInputElements e.2) ∧
  m.activeLasers < m.maxInputElements ∧
  (∀ ls, m.lasers = some ls → m.activeLasers ≤ ls.length ∧ ls ≠ [] ∧ clonesOfHead ls) ∧
  (m.lasers = none → m.renderer = true → m.activeLasers = 0) ∧
  m.activeCursors < m.maxInputElements ∧
  (∀ cs, m.cursors = some cs → m.activeCursors ≤ cs.length ∧ cs ≠ [] ∧ clonesOfHead cs) ∧
  (m.cursors = none → m.renderer = true → m.activeCursors = 0)

/-- The effect of one `reset` call on the controller dictionary field,
as a function of the `controllers` selector. -/
def resetFieldCtrls (b : Bool) :
    Option (List (String × Controller)) → Option (List (String × Controller))
  | some d => if b then some (alMapVals resetCtrl d) else some d
  | none => none

/-- The effect of one `reset` call on a shared pool field (lasers or
cursors), as a function of that kind's selector. -/
def resetFieldPool (b : Bool) : Option (List SGNode) → Option (List SGNode)
  | some ls => if b then some (ls.map hideNode) else some ls
  | none => none

/-- The effect of one `reset` call on a shared pool's active counter. -/
def resetFieldCount (b : Bool) (pool : Option (List SGNode)) (a : Nat) : Nat :=
  match pool with
  | some _ => if b then 0 else a
  | none => a

/-- A sample resolved controller model node (fresh from the asset loader,
identity 1, its own mesh reference). -/
def nodeA : SGNode :=
  { id := 1, meshId := 11, matrix := 0, translation := 0, visible := true }

/-- A second, different sample controller model node. -/
def nodeB : SGNode :=
  { id := 2, meshId := 22, matrix := 0, translation := 0, visible := true }

/-! ## Association-list lemmas -/

theorem alLookup_alInsert_self (k : String) (c : Controller) (d : List (String × Controller)) :
    alLookup k (alInsert k c d) = some c := by
  induction d with
  | nil => simp [alInsert, alLookup]
  | cons e rest ih =>
    obtain ⟨k', c'⟩ := e
    by_cases h : k' = k <;> simp [alInsert, alLookup, h, ih]

theorem alLookup_alMapVals (f : Controller → Controller) (k : String)
    (d : List (String × Controller)) :
    alLookup k (alMapVals f d) = (alLookup k d).map f := by
  induction d with
  | nil => simp [alMapVals, alLookup]
  | cons e rest ih =>
    obtain ⟨k', c'⟩ := e
    by_cases h : k' = k <;> simp [alMapVals, alLookup, h] <;> simpa [alMapVals] using ih

theorem alMapVals_alInsert (f : Controller → Controller) (k : String) (c : Controller)
    (d : List (String × Controller)) :
    alMapVals f (alInsert k c d) = alInsert k (f c) (alMapVals f d) := by
  induction d with
  | nil => simp [alMapVals, alInsert]
  | cons e rest ih =>
    obtain ⟨k', c'⟩ := e
    by_cases h : k' = k <;> simp [alMapVals, alInsert, h] <;> simpa [alMapVals] using ih

theorem alMapVals_alMapVals (f g : Controller → Controller) (d : List (String × Controller)) :
    alMapVals f (alMapVals g d) = alMapVals (fun c => f (g c)) d := by
  simp [alMapVals, List.map_map, Function.comp]

theorem mem_alInsert {k : String} {c : Controller} {d : List (String × Controller)}
    {e : String × Controller} (h : e ∈ alInsert k c d) : e = (k, c) ∨ e ∈ d := by
  induction d with
  | nil => simpa [alInsert] using h
  | cons hd rest ih =>
    obtain ⟨k', c'⟩ := hd
    by_cases hk : k' = k
    · simp [alInsert, hk] at h
      rcases h with h | h
      · exact Or.inl (by simp [h])
      · exact Or.inr (by simp [h])
    · simp [alInsert, hk] at h
      rcases h with h | h
      · exact Or.inr (by simp [h])
      · rcases ih h with h' | h'
        · exact Or.inl h'
        · exact Or.inr (by simp [h'])

theorem alLookup_mem {k : String} {c : Controller} :
    ∀ {d : List (String × Controller)}, alLookup k d = some c → (k, c) ∈ d := by
  intro d
  induction d with
  | nil => simp [alLookup]
  | cons hd rest ih =>
    obtain ⟨k', c'⟩ := hd
    by_cases hk : k' = k
    · simp [alLookup, hk]
      intro h
      exact Or.inl h.symm
    · simp [alLookup, hk]
      intro h
      exact Or.inr (ih h)

/-! ## Claim C1 — registration idempotency -/

/-- Claim C1 counterexample: after registering `nodeA` and then `nodeB`
for the same `(profileA, left)` key, the pool's node list holds only the
second node (identity 2), not the first — the claim that the pool retains
the first node's template only is false. -/
theorem setControllerMesh_first_wins_cex :
    ((alLookup "profileA_left"
        ((setControllerMesh (setControllerMesh init nodeA "left" "profileA")
            nodeB "left" "profileA").controllers.getD [])).map
      (fun c => c.nodes.map SGNode.id)) = some [nodeB.id] ∧ nodeB.id ≠ nodeA.id := by
  exact ⟨rfl, by decide⟩

/-- Claim C1 amended: `setControllerMesh` is not idempotent per key — every
call overwrites the key's record, so after two registrations for the same
key the pool holds exactly the second node's template (hidden) with the
active count reset to 0: the last registration wins. -/
theorem setControllerMesh_last_wins (m : InputRenderer) (nA nB : SGNode)
    (hdn pf : String) :
    alLookup (pf ++ "_" ++ hdn)
        ((setControllerMesh (setControllerMesh m nA hdn pf) nB hdn pf).controllers.getD []) =
      some { nodes := [{ nB with visible := false }], activeCount := 0, recVisible := none } := by
  simp [setControllerMesh, alLookup_alInsert_self]

/-! ## Claim C2 — behavior with no backend attached -/

/-- Claim C2 counterexample: on the freshly constructed manager (no backend
attached, not blurred), `addCursor` throws (`this._cursors.length` on a
null pool) and `addLaserPointer` changes the state (it advances
`_activeLasers`), so neither is a failure-free no-op. -/
theorem show_no_backend_not_noop_cex :
    addCursor init 5 = .error "TypeError" ∧ addLaserPointer init 7 ≠ init := by
  exact ⟨rfl, by decide⟩

/-- Claim C2 amended: with no backend attached, no pools yet and the
session not blurred, `addLaserPointer` acquires no instance and creates no
pool but still advances `_activeLasers` modulo the capacity, and
`addCursor` throws a `TypeError` on the null cursor pool. -/
theorem show_no_backend_behavior (m : InputRenderer) (pose pos : Nat)
    (hb : m.blurred = false) (hr : m.renderer = false)
    (hl : m.lasers = none) (hc : m.cursors = none) :
    addLaserPointer m pose =
      { m with activeLasers := (m.activeLasers + 1) % m.maxInputElements } ∧
    addCursor m pos = .error "TypeError" := by
  constructor
  · simp [addLaserPointer, lazyCreate, laserAcquire, hb, hr, hl]
  · simp [addCursor, lazyCreate, cursorAcquire, hb, hr, hc]

/-- Witness for the amended C2 theorem at the initial state. -/
theorem show_no_backend_behavior_witness :
    init.blurred = false ∧ init.renderer = false ∧ init.lasers = none ∧ init.cursors = none ∧
    (addLaserPointer init 7 =
        { init with activeLasers := (init.activeLasers + 1) % init.maxInputElements } ∧
      addCursor init 5 = .error "TypeError") :=
  ⟨rfl, rfl, rfl, rfl, show_no_backend_behavior init 7 5 rfl rfl rfl rfl⟩

/-! ## Claim C4 — backend change -/

/-- Claim C4 counterexample: with a controller pool registered for
`(profileA, left)`, `onRendererChanged` leaves the whole controller
dictionary null — the registry entry is removed, contradicting the claim
that pool registry entries are never removed and that pools are merely
reset. -/
theorem onRendererChanged_keeps_registry_cex :
    ((alLookup "profileA_left"
        ((setControllerMesh init nodeA "left" "profileA").controllers.getD [])).isSome = true) ∧
    (onRendererChanged (setControllerMesh init nodeA "left" "profileA")).controllers = none := by
  exact ⟨rfl, rfl⟩

/-- Claim C4 amended: `onRendererChanged` discards the controller registry
and the laser and cursor pools outright (all three references become null,
dropping the mesh-template cache together with every pooled instance) and
zeroes the active counters; it does not walk the instances to clear their
visibility flags, and registry entries do not survive the backend change.
The blur flag and the capacity are untouched. -/
theorem onRendererChanged_drops_pools (m : InputRenderer) :
    (onRendererChanged m).controllers = none ∧
    (onRendererChanged m).lasers = none ∧
    (onRendererChanged m).cursors = none ∧
    (onRendererChanged m).activeControllers = 0 ∧
    (onRendererChanged m).activeLasers = 0 ∧
    (onRendererChanged m).activeCursors = 0 ∧
    (onRendererChanged m).blurred = m.blurred ∧
    (onRendererChanged m).maxInputElements = m.maxInputElements :=
  ⟨rfl, rfl, rfl, rfl, rfl, rfl, rfl, rfl⟩

/-! ## Claim C5 — suspension gates all shows -/

/-- Claim C5: while the manager is blurred, `addController`,
`addLaserPointer` and `addCursor` acquire nothing, throw nothing and leave
the state unchanged; and the blur transition itself only flips the blur
flag, touching no pool, so already-visible instances stay visible. -/
theorem suspended_shows_are_noops (m : InputRenderer) (g pose pos : Nat)
    (hdn pf : String) (hb : m.blurred = true) :
    addControllerAcq m g hdn pf = .ok (m, none) ∧
    addLaserPointer m pose = m ∧
    addCursor m pos = .ok m ∧
    (∀ v, (onVisibilityChange m v).controllers = m.controllers ∧
      (onVisibilityChange m v).lasers = m.lasers ∧
      (onVisibilityChange m v).cursors = m.cursors) := by
  refine ⟨?_, ?_, ?_, ?_⟩
  · cases hc : m.controllers <;> simp [addControllerAcq, hc, hb]
  · simp [addLaserPointer, hb]
  · simp [addCursor, hb]
  · intro v
    unfold onVisibilityChange
    split_ifs <;> exact ⟨rfl, rfl, rfl⟩

/-- Witness for C5 at a blurred state holding a registered controller
pool. -/
theorem suspended_shows_are_noops_witness :
    ({ setControllerMesh init nodeA "left" "profileA" with blurred := true }.blurred = true) ∧
    (addControllerAcq { setControllerMesh init nodeA "left" "profileA" with blurred := true }
        3 "left" "profileA" =
      .ok ({ setControllerMesh init nodeA "left" "profileA" with blurred := true }, none)) :=
  ⟨rfl, (suspended_shows_are_noops _ 3 4 5 "left" "profileA" rfl).1⟩

/-! ## Claim C9 — unregistered keys -/

/-- Claim C9: `addController` for a key with no registered pool never
creates a pool, never throws, and leaves the manager state unchanged. -/
theorem addController_unregistered_noop (m : InputRenderer) (g : Nat) (hdn pf : String)
    (h : ∀ d, m.controllers = some d → alLookup (pf ++ "_" ++ hdn) d = none) :
    addControllerAcq m g hdn pf = .ok (m, none) := by
  cases hc : m.controllers with
  | none => simp [addControllerAcq, hc]
  | some d =>
    by_cases hb : m.blurred <;> simp [addControllerAcq, hc, hb, h d hc]

/-- Witness for C9: a manager with a pool registered for `(profileA, left)`
and a `show_controller` for the unregistered `(profileB, right)` key. -/
theorem addController_unregistered_noop_witness :
    (∀ d, (setControllerMesh init nodeA "left" "profileA").controllers = some d →
      alLookup ("profileB" ++ "_" ++ "right") d = none) ∧
    addControllerAcq (setControllerMesh init nodeA "left" "profileA") 3 "right" "profileB" =
      .ok (setControllerMesh init nodeA "left" "profileA", none) := by
  have h : ∀ d, (setControllerMesh init nodeA "left" "profileA").controllers = some d →
      alLookup ("profileB" ++ "_" ++ "right") d = none := by
    intro d hd
    have : d = [("profileA_left",
        { nodes := [{ nodeA with visible := false }], activeCount := 0, recVisible := none })] := by
      simpa [setControllerMesh, init, alInsert] using hd.symm
    subst this
    rfl
  exact ⟨h, addController_unregistered_noop _ 3 "right" "profileB" h⟩

/-! ## Reset lemmas -/

theorem hideNode_hideNode (n : SGNode) : hideNode (hideNode n) = hideNode n := rfl

theorem resetCtrl_resetCtrl (c : Controller) : resetCtrl (resetCtrl c) = resetCtrl c := by
  simp [resetCtrl, List.map_map]
  intro a _
  rfl

theorem reset_eq (m : InputRenderer) (oIn : Option ResetOptions) :
    reset m oIn =
      { m with
        controllers := resetFieldCtrls (oIn.getD DEFAULT_RESET_OPTIONS).controllers m.controllers
        lasers := resetFieldPool (oIn.getD DEFAULT_RESET_OPTIONS).lasers m.lasers
        activeLasers :=
          resetFieldCount (oIn.getD DEFAULT_RESET_OPTIONS).lasers m.lasers m.activeLasers
        cursors := resetFieldPool (oIn.getD DEFAULT_RESET_OPTIONS).cursors m.cursors
        activeCursors :=
          resetFieldCount (oIn.getD DEFAULT_RESET_OPTIONS).cursors m.cursors m.activeCursors } := by
  obtain ⟨mx, mc, ml, mcu, a1, a2, a3, bl, r, nid⟩ := m
  unfold reset resetControllersPart resetLasersPart resetCursorsPart
  unfold resetFieldCtrls resetFieldPool resetFieldCount
  cases mc <;> cases ml <;> cases mcu <;>
    by_cases h1 : (oIn.getD DEFAULT_RESET_OPTIONS).controllers <;>
    by_cases h2 : (oIn.getD DEFAULT_RESET_OPTIONS).lasers <;>
    by_cases h3 : (oIn.getD DEFAULT_RESET_OPTIONS).cursors <;>
    simp [h1, h2, h3]

theorem resetFieldCtrls_idem (b : Bool) (x : Option (List (String × Controller))) :
    resetFieldCtrls b (resetFieldCtrls b x) = resetFieldCtrls b x := by
  cases x <;> cases b <;> simp [resetFieldCtrls, alMapVals_alMapVals, resetCtrl_resetCtrl]

theorem resetFieldPool_idem (b : Bool) (x : Option (List SGNode)) :
    resetFieldPool b (resetFieldPool b x) = resetFieldPool b x := by
  cases x <;> cases b <;> simp [resetFieldPool, List.map_map]
  intro a _
  rfl

theorem resetFieldCount_idem (b : Bool) (x : Option (List SGNode)) (a : Nat) :
    resetFieldCount b (resetFieldPool b x) (resetFieldCount b x a) = resetFieldCount b x a := by
  cases x <;> cases b <;> simp [resetFieldPool, resetFieldCount]

theorem reset_reset (m : InputRenderer) (o : Option ResetOptions) :
    reset (reset m o) o = reset m o := by
  rw [reset_eq m o, reset_eq]
  simp [resetFieldCtrls_idem, resetFieldPool_idem, resetFieldCount_idem]

/-! ## `addControllerAcq` characterizations -/

theorem addControllerAcq_reuse (m : InputRenderer) (g : Nat) (hdn pf : String)
    (dict : List (String × Controller)) (c : Controller)
    (hc : m.controllers = some dict) (hb : m.blurred = false)
    (hk : alLookup (pf ++ "_" ++ hdn) dict = some c)
    (hlt : c.activeCount < c.nodes.length) :
    addControllerAcq m g hdn pf = .ok
      ({ m with controllers := some (alInsert (pf ++ "_" ++ hdn)
          { c with
            nodes := c.nodes.set c.activeCount
              { c.nodes.get ⟨c.activeCount, hlt⟩ with matrix := g, visible := true }
            activeCount := (c.activeCount + 1) % m.maxInputElements } dict) },
        some c.activeCount) := by
  unfold addControllerAcq
  rw [hc]
  simp only [hb, Bool.false_eq_true, if_false, hk]
  rw [dif_pos hlt]

theorem addControllerAcq_clone (m : InputRenderer) (g : Nat) (hdn pf : String)
    (dict : List (String × Controller)) (c : Controller) (n0 : SGNode) (rest : List SGNode)
    (hc : m.controllers = some dict) (hb : m.blurred = false)
    (hk : alLookup (pf ++ "_" ++ hdn) dict = some c)
    (hge : ¬ c.activeCount < c.nodes.length)
    (hnodes : c.nodes = n0 :: rest) :
    addControllerAcq m g hdn pf = .ok
      ({ m with
          controllers := some (alInsert (pf ++ "_" ++ hdn)
            { c with
              nodes := c.nodes ++ [{ cloneNode n0 m.nextId with matrix := g, visible := true }]
              activeCount := (c.activeCount + 1) % m.maxInputElements } dict)
          nextId := m.nextId + 1 },
        some c.nodes.length) := by
  unfold addControllerAcq
  rw [hc]
  simp only [hb, Bool.false_eq_true, if_false, hk]
  rw [dif_neg hge]
  rw [hnodes]

theorem addControllerAcq_empty (m : InputRenderer) (g : Nat) (hdn pf : String)
    (dict : List (String × Controller)) (c : Controller)
    (hc : m.controllers = some dict) (hb : m.blurred = false)
    (hk : alLookup (pf ++ "_" ++ hdn) dict = some c)
    (hnodes : c.nodes = []) :
    addControllerAcq m g hdn pf = .error "TypeError" := by
  unfold addControllerAcq
  rw [hc]
  simp only [hb, Bool.false_eq_true, if_false, hk]
  rw [dif_neg (by simp [hnodes])]
  rw [hnodes]

/-! ## Clone-structure lemmas -/

theorem mem_alMapVals {f : Controller → Controller} {d : List (String × Controller)}
    {e : String × Controller} (h : e ∈ alMapVals f d) :
    ∃ e0 ∈ d, e = (e0.1, f e0.2) := by
  rcases List.mem_map.1 h with ⟨a, ha, rfl⟩
  exact ⟨a, ha, rfl⟩

theorem clonesOfHead_singleton (v : SGNode) : clonesOfHead [v] := by
  simp [clonesOfHead]

theorem clonesOfHead_set (ns : List SGNode) (i : Nat) (hi : i < ns.length) (v : SGNode)
    (hv : v.meshId = (ns.get ⟨i, hi⟩).meshId) (h : clonesOfHead ns) :
    clonesOfHead (ns.set i v) := by
  cases ns with
  | nil => simp [clonesOfHead]
  | cons n0 rest =>
    cases i with
    | zero =>
      simp only [List.set]
      simp only [clonesOfHead] at h ⊢
      intro n hn
      rw [h n hn]
      have hv0 : v.meshId = n0.meshId := by simpa using hv
      exact hv0.symm
    | succ j =>
      simp only [List.set]
      simp only [clonesOfHead] at h ⊢
      intro n hn
      rcases List.mem_or_eq_of_mem_set hn with h' | h'
      · exact h n h'
      · subst h'
        have hj : j < rest.length := by simpa using hi
        have hmem : rest.get ⟨j, hj⟩ ∈ rest := rest.get_mem j hj
        rw [hv]
        simpa using h _ hmem

theorem clonesOfHead_append (n0 : SGNode) (rest : List SGNode) (v : SGNode)
    (hv : v.meshId = n0.meshId) (h : clonesOfHead (n0 :: rest)) :
    clonesOfHead (n0 :: (rest ++ [v])) := by
  simp only [clonesOfHead] at h ⊢
  intro n hn
  rcases List.mem_append.1 hn with h' | h'
  · exact h n h'
  · simp at h'
    subst h'
    exact hv

theorem clonesOfHead_map_hide (ns : List SGNode) (h : clonesOfHead ns) :
    clonesOfHead (ns.map hideNode) := by
  cases ns with
  | nil => simp [clonesOfHead]
  | cons n0 rest =>
    simp only [List.map_cons, clonesOfHead] at h ⊢
    intro n hn
    rcases List.mem_map.1 hn with ⟨a, ha, rfl⟩
    simpa [hideNode] using h a ha

/-! ## Record-visibility erasure lemmas -/

theorem eraseCtrl_eraseCtrl (c : Controller) : eraseCtrl (eraseCtrl c) = eraseCtrl c := rfl

theorem eraseCtrl_mk (a : List SGNode) (b : Nat) (v : Option Bool) :
    eraseCtrl { nodes := a, activeCount := b, recVisible := v } =
      { nodes := a, activeCount := b, recVisible := none } := rfl

theorem eraseCtrl_nodes (c : Controller) : (eraseCtrl c).nodes = c.nodes := rfl

theorem eraseCtrl_activeCount (c : Controller) : (eraseCtrl c).activeCount = c.activeCount := rfl

theorem alMapVals_eraseCtrl_eta (d : List (String × Controller)) :
    alMapVals (fun c =>
      ({ nodes := c.nodes, activeCount := c.activeCount, recVisible := none } : Controller)) d =
      alMapVals eraseCtrl d := rfl

theorem alMapVals_erase_idem (d : List (String × Controller)) :
    alMapVals eraseCtrl (alMapVals eraseCtrl d) = alMapVals eraseCtrl d := by
  rw [alMapVals_alMapVals]
  rfl

theorem optMap_erase_comp (x : Option (List (String × Controller))) :
    Option.map (alMapVals eraseCtrl ∘ alMapVals eraseCtrl) x =
      Option.map (alMapVals eraseCtrl) x := by
  cases x with
  | none => rfl
  | some d =>
    show some (alMapVals eraseCtrl (alMapVals eraseCtrl d)) = some (alMapVals eraseCtrl d)
    rw [alMapVals_erase_idem]

theorem eraseCtrl_resetCtrl (c : Controller) :
    eraseCtrl (resetCtrl c) = resetCtrl (eraseCtrl c) := rfl

theorem alInsert_lookup_self (k : String) (v : Controller) :
    ∀ {d : List (String × Controller)}, alLookup k d = some v → alInsert k v d = d := by
  intro d
  induction d with
  | nil => simp [alLookup]
  | cons e rest ih =>
    obtain ⟨k', c'⟩ := e
    by_cases hk : k' = k
    · subst hk
      simp [alLookup, alInsert]
      intro h
      exact h.symm
    · simp [alLookup, alInsert, hk]
      exact ih

theorem optMap_erase_idem (x : Option (List (String × Controller))) :
    Option.map (alMapVals eraseCtrl) (Option.map (alMapVals eraseCtrl) x) =
      Option.map (alMapVals eraseCtrl) x := by
  cases x with
  | none => rfl
  | some d => simp [alMapVals_alMapVals, eraseCtrl_eraseCtrl]

theorem eraseRecVis_idem (m : InputRenderer) :
    eraseRecVis (eraseRecVis m) = eraseRecVis m := by
  simp [eraseRecVis]
  cases m.controllers <;> simp [alMapVals_alMapVals, eraseCtrl_eraseCtrl, Function.comp]

theorem addLaserPointer_set_controllers (m : InputRenderer)
    (x : Option (List (String × Controller))) (pose : Nat) :
    addLaserPointer { m with controllers := x } pose =
      { addLaserPointer m pose with controllers := x } := by
  obtain ⟨mx, mc, ml, mcu, a1, a2, a3, bl, r, nid⟩ := m
  cases bl
  · cases ml with
    | some ls =>
      by_cases h : a2 < ls.length
      · simp [addLaserPointer, lazyCreate, laserAcquire, h]
      · cases ls with
        | nil => simp [addLaserPointer, lazyCreate, laserAcquire, h]
        | cons l0 rest =>
          have h' : ¬ a2 < rest.length + 1 := by simpa using h
          simp [addLaserPointer, lazyCreate, laserAcquire, h']
    | none =>
      cases r with
      | false => rfl
      | true =>
        by_cases h : a2 < 1
        · simp [addLaserPointer, lazyCreate, laserAcquire, h]
        · simp [addLaserPointer, lazyCreate, laserAcquire, h]
  · rfl

theorem addLaserPointer_controllers (m : InputRenderer) (pose : Nat) :
    (addLaserPointer m pose).controllers = m.controllers := by
  have h := addLaserPointer_set_controllers m m.controllers pose
  have he : ({ m with controllers := m.controllers } : InputRenderer) = m := rfl
  rw [he] at h
  rw [h]

theorem addCursor_set_controllers (m : InputRenderer)
    (x : Option (List (String × Controller))) (pos : Nat) :
    addCursor { m with controllers := x } pos =
      (addCursor m pos).map (fun s => { s with controllers := x }) := by
  obtain ⟨mx, mc, ml, mcu, a1, a2, a3, bl, r, nid⟩ := m
  cases bl
  · cases mcu with
    | some cs =>
      by_cases h : a3 < cs.length
      · simp [addCursor, lazyCreate, cursorAcquire, h, Except.map]
      · cases cs with
        | nil => simp [addCursor, lazyCreate, cursorAcquire, h, Except.map]
        | cons c0 rest =>
          have h' : ¬ a3 < rest.length + 1 := by simpa using h
          simp [addCursor, lazyCreate, cursorAcquire, h', Except.map]
    | none =>
      cases r with
      | false => rfl
      | true =>
        by_cases h : a3 < 1
        · simp [addCursor, lazyCreate, cursorAcquire, h, Except.map]
        · simp [addCursor, lazyCreate, cursorAcquire, h, Except.map]
  · rfl

/-! ## Claim C3 — round-robin acquisition -/

theorem iterAddController_seeded (M : Nat) (n0 : SGNode) (hdn pf : String) (g : Nat) :
    ∀ k, k ≤ M → ∃ ns nid,
      iterAddController g hdn pf k (seeded M n0 hdn pf) =
        { seeded M n0 hdn pf with
          controllers := some [(pf ++ "_" ++ hdn,
            { nodes := ns, activeCount := k % M, recVisible := none })]
          nextId := nid } ∧
      ns.length = max k 1 := by
  intro k
  induction k with
  | zero =>
    intro _
    refine ⟨[{ n0 with visible := false }], 0, ?_, by simp⟩
    simp [iterAddController, seeded, setControllerMesh, init, alInsert, Nat.zero_mod]
  | succ k ih =>
    intro hk1
    obtain ⟨ns, nid, heq, hlen⟩ := ih (Nat.le_of_succ_le hk1)
    have hkM : k < M := hk1
    have hmod : k % M = k := Nat.mod_eq_of_lt hkM
    have hstep : iterAddController g hdn pf (k + 1) (seeded M n0 hdn pf) =
        ((addController (iterAddController g hdn pf k (seeded M n0 hdn pf)) g hdn pf).toOption).getD
          (iterAddController g hdn pf k (seeded M n0 hdn pf)) := rfl
    by_cases hk0 : k = 0
    · subst hk0
      have hlt : ({ nodes := ns, activeCount := 0 % M, recVisible := none } :
          Controller).activeCount < ns.length := by
        simp [Nat.zero_mod, hlen]
      have hacq := addControllerAcq_reuse
        (iterAddController g hdn pf 0 (seeded M n0 hdn pf)) g hdn pf
        [(pf ++ "_" ++ hdn, { nodes := ns, activeCount := 0 % M, recVisible := none })]
        { nodes := ns, activeCount := 0 % M, recVisible := none }
        (by rw [heq]) (by rw [heq]; rfl) (by simp [alLookup]) hlt
      refine ⟨ns.set (0 % M) { ns.get ⟨0 % M, hlt⟩ with matrix := g, visible := true },
        nid, ?_, ?_⟩
      · rw [hstep, addController, hacq, heq]
        simp [Except.map, Except.toOption, alInsert, seeded, setControllerMesh, init,
          Nat.zero_mod]
      · simp [hlen]
    · have hkpos : 1 ≤ k := Nat.one_le_iff_ne_zero.2 hk0
      have hlenk : ns.length = k := by rw [hlen, Nat.max_eq_left hkpos]
      obtain ⟨a, rest, hns⟩ : ∃ a rest, ns = a :: rest := by
        cases hns : ns with
        | nil =>
          rw [hns] at hlenk
          simp at hlenk
          omega
        | cons a rest => exact ⟨a, rest, rfl⟩
      have hge : ¬ ({ nodes := ns, activeCount := k % M, recVisible := none } :
          Controller).activeCount < ns.length := by
        simp [hmod, hlenk]
      have hacq := addControllerAcq_clone
        (iterAddController g hdn pf k (seeded M n0 hdn pf)) g hdn pf
        [(pf ++ "_" ++ hdn, { nodes := ns, activeCount := k % M, recVisible := none })]
        { nodes := ns, activeCount := k % M, recVisible := none } a rest
        (by rw [heq]) (by rw [heq]; rfl) (by simp [alLookup]) hge hns
      refine ⟨ns ++ [{ cloneNode a nid with matrix := g, visible := true }], nid + 1, ?_, ?_⟩
      · rw [hstep, addController, hacq, heq]
        simp [Except.map, Except.toOption, alInsert, seeded, setControllerMesh, init, hmod]
      · simp [hlenk, Nat.max_eq_left (by omega : 1 ≤ k + 1)]

/-- Claim C3: on a fresh pool seeded with one template and capacity `M ≥ 1`,
the `N`th `addController` call (1-indexed, `N ≤ M`) acquires the instance
at the distinct index `N - 1`, and the `(M+1)`th call wraps around and
acquires index 0, the same instance as the first call (so with capacity 2,
three calls acquire indices 0, 1, 0). -/
theorem addController_round_robin (M : Nat) (n0 : SGNode) (hdn pf : String) (g N : Nat)
    (hM : 1 ≤ M) (h1 : 1 ≤ N) (h2 : N ≤ M) :
    nthAcquiredIndex g hdn pf (seeded M n0 hdn pf) N = some (N - 1) ∧
    nthAcquiredIndex g hdn pf (seeded M n0 hdn pf) (M + 1) = some 0 := by
  constructor
  · obtain ⟨ns, nid, heq, hlen⟩ := iterAddController_seeded M n0 hdn pf g (N - 1) (by omega)
    unfold nthAcquiredIndex
    by_cases hN1 : N = 1
    · subst hN1
      have hlt : ({ nodes := ns, activeCount := (1 - 1) % M, recVisible := none } :
          Controller).activeCount < ns.length := by
        simp [hlen]
      have hacq := addControllerAcq_reuse
        (iterAddController g hdn pf (1 - 1) (seeded M n0 hdn pf)) g hdn pf
        [(pf ++ "_" ++ hdn, { nodes := ns, activeCount := (1 - 1) % M, recVisible := none })]
        { nodes := ns, activeCount := (1 - 1) % M, recVisible := none }
        (by rw [heq]) (by rw [heq]; rfl) (by simp [alLookup]) hlt
      rw [hacq]
      simp
    · have hk1 : 1 ≤ N - 1 := by omega
      have hmod : (N - 1) % M = N - 1 := Nat.mod_eq_of_lt (by omega)
      have hlenk : ns.length = N - 1 := by rw [hlen, Nat.max_eq_left hk1]
      obtain ⟨a, rest, hns⟩ : ∃ a rest, ns = a :: rest := by
        cases hns : ns with
        | nil =>
          rw [hns] at hlenk
          simp at hlenk
          omega
        | cons a rest => exact ⟨a, rest, rfl⟩
      have hge : ¬ ({ nodes := ns, activeCount := (N - 1) % M, recVisible := none } :
          Controller).activeCount < ns.length := by
        simp [hmod, hlenk]
      have hacq := addControllerAcq_clone
        (iterAddController g hdn pf (N - 1) (seeded M n0 hdn pf)) g hdn pf
        [(pf ++ "_" ++ hdn, { nodes := ns, activeCount := (N - 1) % M, recVisible := none })]
        { nodes := ns, activeCount := (N - 1) % M, recVisible := none } a rest
        (by rw [heq]) (by rw [heq]; rfl) (by simp [alLookup]) hge hns
      rw [hacq]
      simp [hlenk]
  · obtain ⟨ns, nid, heq, hlen⟩ := iterAddController_seeded M n0 hdn pf g M (le_refl M)
    unfold nthAcquiredIndex
    have hlenM : ns.length = M := by rw [hlen, Nat.max_eq_left hM]
    have hlt : ({ nodes := ns, activeCount := M % M, recVisible := none } :
        Controller).activeCount < ns.length := by
      simp [Nat.mod_self, hlenM]
      omega
    have hacq := addControllerAcq_reuse
      (iterAddController g hdn pf (M + 1 - 1) (seeded M n0 hdn pf)) g hdn pf
      [(pf ++ "_" ++ hdn, { nodes := ns, activeCount := M % M, recVisible := none })]
      { nodes := ns, activeCount := M % M, recVisible := none }
      (by simp only [Nat.add_sub_cancel]; rw [heq])
      (by simp only [Nat.add_sub_cancel]; rw [heq]; rfl)
      (by simp [alLookup]) hlt
    rw [hacq]
    simp [Nat.mod_self]

/-- Witness for C3: capacity 2, seeded with `nodeA`; the second call
acquires index 1 and the third (capacity+1) call wraps to index 0. -/
theorem addController_round_robin_witness :
    ((1:Nat) ≤ 2 ∧ (1:Nat) ≤ 2 ∧ (2:Nat) ≤ 2) ∧
    (nthAcquiredIndex 7 "left" "profileA" (seeded 2 nodeA "left" "profileA") 2 = some (2 - 1) ∧
      nthAcquiredIndex 7 "left" "profileA" (seeded 2 nodeA "left" "profileA") (2 + 1) = some 0) :=
  ⟨⟨by decide, by decide, by decide⟩,
    addController_round_robin 2 nodeA "left" "profileA" 7 2
      (by decide) (by decide) (by decide)⟩

/-! ## Claim C7 — reset contract and reset-then-acquire -/

/-- Claim C7: `reset` hides every instance of every selected pool and
zeroes the selected pools' active cursors — every controller record's
nodes all become invisible with its active count 0, and the laser and
cursor pools likewise when selected — and `reset` is idempotent; after a
reset whose selector includes controllers, a registered pool's index-0
instance is hidden, and the next `addController` for that key acquires
exactly that index-0 instance and is what turns its visibility back on. -/
theorem reset_idempotent_acquire_zero (m : InputRenderer) (o : Option ResetOptions)
    (g : Nat) (hdn pf : String) (dict : List (String × Controller)) (c : Controller)
    (hb : m.blurred = false)
    (hsel : (o.getD DEFAULT_RESET_OPTIONS).controllers = true)
    (hc : m.controllers = some dict)
    (hk : alLookup (pf ++ "_" ++ hdn) dict = some c)
    (hne : c.nodes ≠ []) :
    reset (reset m o) o = reset m o ∧
    (∀ d', (reset m o).controllers = some d' →
      ∀ e ∈ d', e.2.activeCount = 0 ∧ ∀ n ∈ e.2.nodes, n.visible = false) ∧
    ((o.getD DEFAULT_RESET_OPTIONS).lasers = true →
      ∀ ls, (reset m o).lasers = some ls →
        (∀ n ∈ ls, n.visible = false) ∧ (reset m o).activeLasers = 0) ∧
    ((o.getD DEFAULT_RESET_OPTIONS).cursors = true →
      ∀ cs, (reset m o).cursors = some cs →
        (∀ n ∈ cs, n.visible = false) ∧ (reset m o).activeCursors = 0) ∧
    ((alLookup (pf ++ "_" ++ hdn) ((reset m o).controllers.getD [])).bind
      (fun c' => c'.nodes.head?.map SGNode.visible)) = some false ∧
    ∃ m', addControllerAcq (reset m o) g hdn pf = .ok (m', some 0) ∧
      ((alLookup (pf ++ "_" ++ hdn) (m'.controllers.getD [])).bind
        (fun c' => c'.nodes.head?.map SGNode.visible)) = some true := by
  obtain ⟨n0, rest, hnodes⟩ : ∃ n0 rest, c.nodes = n0 :: rest := by
    cases hcn : c.nodes with
    | nil => exact absurd hcn hne
    | cons a as => exact ⟨a, as, rfl⟩
  have hrc : (reset m o).controllers = some (alMapVals resetCtrl dict) := by
    rw [reset_eq]
    simp [hc, resetFieldCtrls, hsel]
  have hrb : (reset m o).blurred = false := by
    rw [reset_eq]
    exact hb
  have hlook : alLookup (pf ++ "_" ++ hdn) (alMapVals resetCtrl dict) = some (resetCtrl c) := by
    rw [alLookup_alMapVals, hk]
    rfl
  have hlt : (resetCtrl c).activeCount < (resetCtrl c).nodes.length := by
    simp [resetCtrl, hnodes]
  refine ⟨reset_reset m o, ?_, ?_, ?_, ?_, ?_⟩
  · intro d' hd' e he
    rw [hrc] at hd'
    injection hd' with hd'
    subst hd'
    rcases mem_alMapVals he with ⟨e0, _, rfl⟩
    refine ⟨rfl, ?_⟩
    intro n hn
    rcases List.mem_map.1 hn with ⟨a, _, rfl⟩
    rfl
  · intro hsl ls hls
    have hrl : (reset m o).lasers =
        resetFieldPool (o.getD DEFAULT_RESET_OPTIONS).lasers m.lasers := by
      rw [reset_eq]
    have hra : (reset m o).activeLasers =
        resetFieldCount (o.getD DEFAULT_RESET_OPTIONS).lasers m.lasers m.activeLasers := by
      rw [reset_eq]
    rw [hrl, hsl] at hls
    cases hl : m.lasers with
    | none =>
      rw [hl] at hls
      simp [resetFieldPool] at hls
    | some ls0 =>
      rw [hl] at hls
      simp [resetFieldPool] at hls
      subst hls
      refine ⟨?_, ?_⟩
      · intro n hn
        rcases List.mem_map.1 hn with ⟨a, _, rfl⟩
        rfl
      · rw [hra, hsl, hl]
        simp [resetFieldCount]
  · intro hsc cs hcs
    have hrcu : (reset m o).cursors =
        resetFieldPool (o.getD DEFAULT_RESET_OPTIONS).cursors m.cursors := by
      rw [reset_eq]
    have hrac : (reset m o).activeCursors =
        resetFieldCount (o.getD DEFAULT_RESET_OPTIONS).cursors m.cursors m.activeCursors := by
      rw [reset_eq]
    rw [hrcu, hsc] at hcs
    cases hcu : m.cursors with
    | none =>
      rw [hcu] at hcs
      simp [resetFieldPool] at hcs
    | some cs0 =>
      rw [hcu] at hcs
      simp [resetFieldPool] at hcs
      subst hcs
      refine ⟨?_, ?_⟩
      · intro n hn
        rcases List.mem_map.1 hn with ⟨a, _, rfl⟩
        rfl
      · rw [hrac, hsc, hcu]
        simp [resetFieldCount]
  · rw [hrc]
    simp only [Option.getD_some]
    rw [hlook]
    simp [resetCtrl, hnodes, hideNode]
  · refine ⟨_, addControllerAcq_reuse (reset m o) g hdn pf _ _ hrc hrb hlook hlt, ?_⟩
    simp only [Option.getD_some, alLookup_alInsert_self]
    simp [resetCtrl, hnodes, hideNode]

/-- Witness for C7: a manager with the `(profileA, left)` pool registered,
default (null) reset options; the reset is idempotent and hides every
instance of every registered controller record with its count zeroed. -/
theorem reset_idempotent_acquire_zero_witness :
    ((setControllerMesh init nodeA "left" "profileA").blurred = false ∧
      ((none : Option ResetOptions).getD DEFAULT_RESET_OPTIONS).controllers = true ∧
      (setControllerMesh init nodeA "left" "profileA").controllers =
        some [("profileA_left",
          { nodes := [{ nodeA with visible := false }], activeCount := 0, recVisible := none })] ∧
      alLookup ("profileA" ++ "_" ++ "left")
          [("profileA_left",
            { nodes := [{ nodeA with visible := false }], activeCount := 0,
              recVisible := none })] =
        some { nodes := [{ nodeA with visible := false }], activeCount := 0,
               recVisible := none } ∧
      ({ nodes := [{ nodeA with visible := false }], activeCount := 0,
         recVisible := none } : Controller).nodes ≠ []) ∧
    reset (reset (setControllerMesh init nodeA "left" "profileA") none) none =
      reset (setControllerMesh init nodeA "left" "profileA") none ∧
    (∀ d', (reset (setControllerMesh init nodeA "left" "profileA") none).controllers = some d' →
      ∀ e ∈ d', e.2.activeCount = 0 ∧ ∀ n ∈ e.2.nodes, n.visible = false) := by
  have h := reset_idempotent_acquire_zero (setControllerMesh init nodeA "left" "profileA") none
    9 "left" "profileA" _ _ rfl rfl rfl rfl (by simp)
  exact ⟨⟨rfl, rfl, rfl, rfl, by simp⟩, h.1, h.2.1⟩

/-! ## Claim C8 — selective reset -/

theorem filter_visible_set_zero (xs : List SGNode) (v : SGNode) (hv : v.visible = true)
    (hall : ∀ n ∈ xs, n.visible = false) (h0 : xs ≠ []) :
    ((xs.set 0 v).filter (fun n => n.visible)).length = 1 := by
  cases xs with
  | nil => exact absurd rfl h0
  | cons a as =>
    have : as.filter (fun n => n.visible) = [] := by
      rw [List.filter_eq_nil_iff]
      intro n hn
      simp [hall n (List.mem_cons_of_mem a hn)]
    simp [List.set, this, hv]

/-- Claim C8: `reset {lasers := true, controllers := false, cursors := false}`
followed by one `addLaserPointer` leaves exactly one laser instance visible,
and the controller registry — every record, node, visibility flag — is
untouched by both calls. -/
theorem selective_reset_then_laser (m : InputRenderer) (pose : Nat) (ls : List SGNode)
    (hl : m.lasers = some ls) (hne : ls ≠ []) (hb : m.blurred = false) :
    (∃ ls2,
      (addLaserPointer
          (reset m (some { controllers := false, lasers := true, cursors := false })) pose).lasers =
        some ls2 ∧
      (ls2.filter (fun n => n.visible)).length = 1) ∧
    (addLaserPointer
        (reset m (some { controllers := false, lasers := true, cursors := false })) pose).controllers =
      m.controllers := by
  have hrl : (reset m (some { controllers := false, lasers := true, cursors := false })).lasers =
      some (ls.map hideNode) := by
    rw [reset_eq]
    simp [hl, resetFieldPool]
  have hra : (reset m (some { controllers := false, lasers := true, cursors := false })).activeLasers
      = 0 := by
    rw [reset_eq]
    simp [hl, resetFieldCount]
  have hrb : (reset m (some { controllers := false, lasers := true, cursors := false })).blurred
      = false := by
    rw [reset_eq]
    exact hb
  have hrc : (reset m (some { controllers := false, lasers := true, cursors := false })).controllers
      = m.controllers := by
    rw [reset_eq]
    cases hmc : m.controllers <;> simp [resetFieldCtrls]
  set mr := reset m (some { controllers := false, lasers := true, cursors := false }) with hmr
  have hlen : 0 < (ls.map hideNode).length := by
    simpa [List.length_pos] using hne
  have hstep : addLaserPointer mr pose =
      { mr with
        lasers := some ((ls.map hideNode).set 0
          { (ls.map hideNode).get ⟨0, hlen⟩ with matrix := pose, visible := true })
        activeLasers := (0 + 1) % mr.maxInputElements } := by
    unfold addLaserPointer
    rw [if_neg (by simp [hrb])]
    have hcreate : lazyCreate mr.lasers mr.renderer mr.nextId = (some (ls.map hideNode), mr.nextId) := by
      rw [hrl]
      rfl
    rw [hcreate]
    unfold laserAcquire
    simp only [hrl]
    rw [hra]
    rw [dif_pos hlen]
  refine ⟨⟨_, by rw [hstep], ?_⟩, by rw [hstep]; exact hrc⟩
  exact filter_visible_set_zero (ls.map hideNode) _ rfl
    (by intro n hn; rcases List.mem_map.1 hn with ⟨a, _, rfl⟩; rfl)
    (by simpa using hne)

/-- Witness for C8: a manager with a backend attached and one laser already
shown (and visible). -/
theorem selective_reset_then_laser_witness :
    ((addLaserPointer { init with renderer := true } 3).lasers =
        some [{ id := 0, meshId := 0, matrix := 3, translation := 0, visible := true }] ∧
      ([{ id := 0, meshId := 0, matrix := 3, translation := 0, visible := true }] : List SGNode)
        ≠ [] ∧
      (addLaserPointer { init with renderer := true } 3).blurred = false) ∧
    ((∃ ls2,
      (addLaserPointer
          (reset (addLaserPointer { init with renderer := true } 3)
            (some { controllers := false, lasers := true, cursors := false })) 5).lasers =
        some ls2 ∧
      (ls2.filter (fun n => n.visible)).length = 1) ∧
    (addLaserPointer
        (reset (addLaserPointer { init with renderer := true } 3)
          (some { controllers := false, lasers := true, cursors := false })) 5).controllers =
      (addLaserPointer { init with renderer := true } 3).controllers) :=
  ⟨⟨rfl, by decide, rfl⟩,
    selective_reset_then_laser (addLaserPointer { init with renderer := true } 3) 5
      [{ id := 0, meshId := 0, matrix := 3, translation := 0, visible := true }]
      rfl (by decide) rfl⟩

/-! ## Claim C6 — state invariant preservation -/

theorem Inv_init : Inv init := by
  simp [Inv, init]

theorem Inv_setControllerMesh (m : InputRenderer) (n : SGNode) (hdn pf : String)
    (h : Inv m) : Inv (setControllerMesh m n hdn pf) := by
  obtain ⟨h1, h2, h3, h4, h5, h6, h7, h8⟩ := h
  refine ⟨h1, ?_, h3, h4, h5, h6, h7, h8⟩
  intro d hd e he
  simp only [setControllerMesh, Option.some.injEq] at hd
  subst hd
  rcases mem_alInsert he with rfl | hmem
  · refine ⟨by simp [setControllerMesh, h1], by simp, by simp, ?_⟩
    simp [clonesOfHead]
  · cases hc : m.controllers with
    | none =>
      rw [hc] at hmem
      simp at hmem
    | some dict =>
      rw [hc] at hmem
      exact h2 dict hc e hmem

theorem Inv_hideController (m : InputRenderer) (hdn pf : String) (h : Inv m) :
    Inv (hideController m hdn pf) := by
  unfold hideController
  cases hc : m.controllers with
  | none => exact h
  | some dict =>
    show Inv (match alLookup (pf ++ "_" ++ hdn) dict with
      | none => m
      | some c => { m with controllers := some (alInsert (pf ++ "_" ++ hdn)
          { c with recVisible := some true } dict) })
    cases hk : alLookup (pf ++ "_" ++ hdn) dict with
    | none => exact h
    | some c =>
      obtain ⟨h1, h2, h3, h4, h5, h6, h7, h8⟩ := h
      refine ⟨h1, ?_, h3, h4, h5, h6, h7, h8⟩
      intro d hd e he
      simp only [Option.some.injEq] at hd
      subst hd
      rcases mem_alInsert he with rfl | hmem
      · have hcin : (pf ++ "_" ++ hdn, c) ∈ dict := alLookup_mem hk
        have := h2 dict hc _ hcin
        exact ⟨this.1, this.2.1, this.2.2.1, this.2.2.2⟩
      · exact h2 dict hc e hmem

theorem addControllerAcq_noop (m : InputRenderer) (g : Nat) (hdn pf : String)
    (h : m.controllers = none ∨ m.blurred = true ∨
      ∃ dict, m.controllers = some dict ∧ alLookup (pf ++ "_" ++ hdn) dict = none) :
    addControllerAcq m g hdn pf = .ok (m, none) := by
  unfold addControllerAcq
  rcases h with hc | hb | ⟨dict, hc, hk⟩
  · rw [hc]
  · cases hc : m.controllers <;> simp [hb]
  · rw [hc]
    by_cases hb : m.blurred = true <;> simp [hb, hk]

theorem Inv_addControllerStep (m : InputRenderer) (g : Nat) (hdn pf : String) (h : Inv m) :
    Inv (((addController m g hdn pf).toOption).getD m) := by
  cases hc : m.controllers with
  | none =>
    rw [addController, addControllerAcq_noop m g hdn pf (Or.inl hc)]
    simpa [Except.map, Except.toOption] using h
  | some dict =>
    by_cases hb : m.blurred = true
    · rw [addController, addControllerAcq_noop m g hdn pf (Or.inr (Or.inl hb))]
      simpa [Except.map, Except.toOption] using h
    · have hb' : m.blurred = false := by simpa using hb
      cases hk : alLookup (pf ++ "_" ++ hdn) dict with
      | none =>
        rw [addController, addControllerAcq_noop m g hdn pf (Or.inr (Or.inr ⟨dict, hc, hk⟩))]
        simpa [Except.map, Except.toOption] using h
      | some c =>
        obtain ⟨h1, h2, h3, h4, h5, h6, h7, h8⟩ := h
        have hcok : CtrlOk m.maxInputElements c :=
          h2 dict hc (pf ++ "_" ++ hdn, c) (alLookup_mem hk)
        have hmaxpos : 0 < m.maxInputElements := by
          rw [h1]
          decide
        by_cases hlt : c.activeCount < c.nodes.length
        · rw [addController, addControllerAcq_reuse m g hdn pf dict c hc hb' hk hlt]
          simp only [Except.map, Except.toOption, Option.getD_some]
          refine ⟨h1, ?_, h3, h4, h5, h6, h7, h8⟩
          intro d hd e he
          simp only [Option.some.injEq] at hd
          subst hd
          rcases mem_alInsert he with rfl | hmem
          · refine ⟨Nat.mod_lt _ hmaxpos, ?_, ?_, ?_⟩
            · simp only [List.length_set]
              exact le_trans (Nat.mod_le _ _) hlt
            · refine List.ne_nil_of_length_pos ?_
              simp only [List.length_set]
              omega
            · exact clonesOfHead_set c.nodes c.activeCount hlt _ rfl hcok.2.2.2
          · exact h2 dict hc e hmem
        · cases hn : c.nodes with
          | nil =>
            rw [addController, addControllerAcq_empty m g hdn pf dict c hc hb' hk hn]
            exact ⟨h1, h2, h3, h4, h5, h6, h7, h8⟩
          | cons n0 rest =>
            rw [addController, addControllerAcq_clone m g hdn pf dict c n0 rest hc hb' hk hlt hn]
            simp only [Except.map, Except.toOption, Option.getD_some]
            refine ⟨h1, ?_, h3, h4, h5, h6, h7, h8⟩
            intro d hd e he
            simp only [Option.some.injEq] at hd
            subst hd
            rcases mem_alInsert he with rfl | hmem
            · refine ⟨Nat.mod_lt _ hmaxpos, ?_, by simp, ?_⟩
              · simp only [List.length_append, List.length_singleton]
                have ha : c.activeCount ≤ c.nodes.length := hcok.2.1
                have := Nat.mod_le (c.activeCount + 1) m.maxInputElements
                omega
              · rw [hn, List.cons_append]
                exact clonesOfHead_append n0 rest _ rfl (hn ▸ hcok.2.2.2)
            · exact h2 dict hc e hmem

theorem laserAcquire_none (m : InputRenderer) (pose : Nat) (hl : m.lasers = none) :
    laserAcquire m pose =
      { m with activeLasers := (m.activeLasers + 1) % m.maxInputElements } := by
  unfold laserAcquire
  rw [hl]

theorem laserAcquire_reuse (m : InputRenderer) (pose : Nat) (ls : List SGNode)
    (hl : m.lasers = some ls) (hlt : m.activeLasers < ls.length) :
    laserAcquire m pose =
      { m with
        lasers := some (ls.set m.activeLasers
          { ls.get ⟨m.activeLasers, hlt⟩ with matrix := pose, visible := true })
        activeLasers := (m.activeLasers + 1) % m.maxInputElements } := by
  unfold laserAcquire
  rw [hl]
  simp only [dif_pos hlt]

theorem laserAcquire_empty (m : InputRenderer) (pose : Nat)
    (hl : m.lasers = some []) (hge : ¬ m.activeLasers < (0:Nat)) :
    laserAcquire m pose =
      { m with activeLasers := (m.activeLasers + 1) % m.maxInputElements } := by
  unfold laserAcquire
  rw [hl]
  simp only [dif_neg (by simpa using hge : ¬ m.activeLasers < List.length [])]

theorem laserAcquire_clone (m : InputRenderer) (pose : Nat) (l0 : SGNode) (rest : List SGNode)
    (hl : m.lasers = some (l0 :: rest)) (hge : ¬ m.activeLasers < (l0 :: rest).length) :
    laserAcquire m pose =
      { m with
        lasers := some ((l0 :: rest) ++
          [{ cloneNode l0 m.nextId with matrix := pose, visible := true }])
        activeLasers := (m.activeLasers + 1) % m.maxInputElements
        nextId := m.nextId + 1 } := by
  unfold laserAcquire
  rw [hl]
  simp only [dif_neg hge]

theorem Inv_laserAcquire (m : InputRenderer) (pose : Nat) (h : Inv m)
    (hnr : m.lasers = none → m.renderer = false) :
    Inv (laserAcquire m pose) := by
  obtain ⟨h1, h2, h3, h4, h5, h6, h7, h8⟩ := h
  have hmaxpos : 0 < m.maxInputElements := by
    rw [h1]
    decide
  cases hl : m.lasers with
  | none =>
    rw [laserAcquire_none m pose hl]
    refine ⟨h1, h2, Nat.mod_lt _ hmaxpos, ?_, ?_, h6, h7, h8⟩
    · intro ls hls
      rw [hl] at hls
      cases hls
    · intro _ hren
      rw [hnr hl] at hren
      cases hren
  | some ls =>
    have hok := h4 ls hl
    by_cases hlt : m.activeLasers < ls.length
    · rw [laserAcquire_reuse m pose ls hl hlt]
      refine ⟨h1, h2, Nat.mod_lt _ hmaxpos, ?_, ?_, h6, h7, h8⟩
      · intro ls2 hls2
        simp only [Option.some.injEq] at hls2
        subst hls2
        refine ⟨?_, ?_, ?_⟩
        · simp only [List.length_set]
          exact le_trans (Nat.mod_le _ _) hlt
        · refine List.ne_nil_of_length_pos ?_
          simp only [List.length_set]
          omega
        · exact clonesOfHead_set ls m.activeLasers hlt _ rfl hok.2.2
      · intro hnone
        cases hnone
    · cases hls : ls with
      | nil =>
        rw [hls] at hok
        exact absurd hok.2.1 (by simp)
      | cons l0 rest =>
        rw [hls] at hl hlt hok
        rw [laserAcquire_clone m pose l0 rest hl hlt]
        refine ⟨h1, h2, Nat.mod_lt _ hmaxpos, ?_, ?_, h6, h7, h8⟩
        · intro ls2 hls2
          simp only [Option.some.injEq] at hls2
          subst hls2
          refine ⟨?_, by simp, ?_⟩
          · simp only [List.length_append, List.length_singleton]
            have ha : m.activeLasers ≤ (l0 :: rest).length := hok.1
            have := Nat.mod_le (m.activeLasers + 1) m.maxInputElements
            simp only [List.length_cons] at ha ⊢
            omega
          · rw [List.cons_append]
            exact clonesOfHead_append l0 rest _ rfl hok.2.2
        · intro hnone
          cases hnone

theorem Inv_addLaserPointer (m : InputRenderer) (pose : Nat) (h : Inv m) :
    Inv (addLaserPointer m pose) := by
  unfold addLaserPointer
  by_cases hb : m.blurred = true
  · rw [if_pos hb]
    exact h
  · rw [if_neg hb]
    cases hl : m.lasers with
    | some ls =>
      show Inv (laserAcquire { m with lasers := some ls, nextId := m.nextId } pose)
      have hm' : ({ m with lasers := some ls, nextId := m.nextId } : InputRenderer) = m := by
        rw [← hl]
      rw [hm']
      refine Inv_laserAcquire m pose h ?_
      intro hn
      rw [hl] at hn
      cases hn
    | none =>
      by_cases hr : m.renderer = true
      · have hcreate : lazyCreate none m.renderer m.nextId =
            (some [freshMesh m.nextId], m.nextId + 1) := by
          rw [hr]
          rfl
        rw [hcreate]
        show Inv (laserAcquire
          { m with lasers := some [freshMesh m.nextId], nextId := m.nextId + 1 } pose)
        obtain ⟨h1, h2, h3, h4, h5, h6, h7, h8⟩ := h
        have haL : m.activeLasers = 0 := h5 hl hr
        refine Inv_laserAcquire _ pose ⟨h1, h2, h3, ?_, ?_, h6, h7, h8⟩ ?_
        · intro ls hls
          simp only [Option.some.injEq] at hls
          subst hls
          exact ⟨by simp [haL], by simp, clonesOfHead_singleton _⟩
        · intro hn
          cases hn
        · intro hn
          cases hn
      · have hr' : m.renderer = false := by simpa using hr
        have hcreate : lazyCreate none m.renderer m.nextId = (none, m.nextId) := by
          rw [hr']
          rfl
        rw [hcreate]
        show Inv (laserAcquire { m with lasers := none, nextId := m.nextId } pose)
        have hm' : ({ m with lasers := none, nextId := m.nextId } : InputRenderer) = m := by
          rw [← hl]
        rw [hm']
        exact Inv_laserAcquire m pose h fun _ => hr'

theorem cursorAcquire_none (m : InputRenderer) (pos : Nat) (hcu : m.cursors = none) :
    cursorAcquire m pos = .error "TypeError" := by
  unfold cursorAcquire
  rw [hcu]

theorem cursorAcquire_reuse (m : InputRenderer) (pos : Nat) (cs : List SGNode)
    (hcu : m.cursors = some cs) (hlt : m.activeCursors < cs.length) :
    cursorAcquire m pos = .ok
      { m with
        cursors := some (cs.set m.activeCursors
          { cs.get ⟨m.activeCursors, hlt⟩ with translation := pos, visible := true })
        activeCursors := (m.activeCursors + 1) % m.maxInputElements } := by
  unfold cursorAcquire
  rw [hcu]
  simp only [dif_pos hlt]

theorem cursorAcquire_empty (m : InputRenderer) (pos : Nat)
    (hcu : m.cursors = some []) (hge : ¬ m.activeCursors < (0:Nat)) :
    cursorAcquire m pos = .error "TypeError" := by
  unfold cursorAcquire
  rw [hcu]
  simp only [dif_neg (by simpa using hge : ¬ m.activeCursors < List.length [])]

theorem cursorAcquire_clone (m : InputRenderer) (pos : Nat) (c0 : SGNode) (rest : List SGNode)
    (hcu : m.cursors = some (c0 :: rest)) (hge : ¬ m.activeCursors < (c0 :: rest).length) :
    cursorAcquire m pos = .ok
      { m with
        cursors := some ((c0 :: rest) ++
          [{ cloneNode c0 m.nextId with translation := pos, visible := true }])
        activeCursors := (m.activeCursors + 1) % m.maxInputElements
        nextId := m.nextId + 1 } := by
  unfold cursorAcquire
  rw [hcu]
  simp only [dif_neg hge]

theorem Inv_cursorAcquire (m m0 : InputRenderer) (pos : Nat) (h : Inv m) (h0 : Inv m0)
    (hnr : m.cursors = none → m.renderer = false) :
    Inv (((cursorAcquire m pos).toOption).getD m0) := by
  obtain ⟨h1, h2, h3, h4, h5, h6, h7, h8⟩ := h
  have hmaxpos : 0 < m.maxInputElements := by
    rw [h1]
    decide
  cases hcu : m.cursors with
  | none =>
    rw [cursorAcquire_none m pos hcu]
    exact h0
  | some cs =>
    have hok := h7 cs hcu
    by_cases hlt : m.activeCursors < cs.length
    · rw [cursorAcquire_reuse m pos cs hcu hlt]
      simp only [Except.toOption, Option.getD_some]
      refine ⟨h1, h2, h3, h4, h5, Nat.mod_lt _ hmaxpos, ?_, ?_⟩
      · intro cs2 hcs2
        simp only [Option.some.injEq] at hcs2
        subst hcs2
        refine ⟨?_, ?_, ?_⟩
        · simp only [List.length_set]
          exact le_trans (Nat.mod_le _ _) hlt
        · refine List.ne_nil_of_length_pos ?_
          simp only [List.length_set]
          omega
        · exact clonesOfHead_set cs m.activeCursors hlt _ rfl hok.2.2
      · intro hnone
        cases hnone
    · cases hcs : cs with
      | nil =>
        rw [hcs] at hcu hlt
        rw [cursorAcquire_empty m pos hcu (by simpa using hlt)]
        exact h0
      | cons c0 rest =>
        rw [hcs] at hcu hlt hok
        rw [cursorAcquire_clone m pos c0 rest hcu hlt]
        simp only [Except.toOption, Option.getD_some]
        refine ⟨h1, h2, h3, h4, h5, Nat.mod_lt _ hmaxpos, ?_, ?_⟩
        · intro cs2 hcs2
          simp only [Option.some.injEq] at hcs2
          subst hcs2
          refine ⟨?_, by simp, ?_⟩
          · simp only [List.length_append, List.length_singleton]
            have ha : m.activeCursors ≤ (c0 :: rest).length := hok.1
            have := Nat.mod_le (m.activeCursors + 1) m.maxInputElements
            simp only [List.length_cons] at ha ⊢
            omega
          · rw [List.cons_append]
            exact clonesOfHead_append c0 rest _ rfl hok.2.2
        · intro hnone
          cases hnone

theorem Inv_addCursorStep (m : InputRenderer) (pos : Nat) (h : Inv m) :
    Inv (((addCursor m pos).toOption).getD m) := by
  unfold addCursor
  by_cases hb : m.blurred = true
  · rw [if_pos hb]
    exact h
  · rw [if_neg hb]
    cases hcu : m.cursors with
    | some cs =>
      show Inv (((cursorAcquire
        { m with cursors := some cs, nextId := m.nextId } pos).toOption).getD m)
      have hm' : ({ m with cursors := some cs, nextId := m.nextId } : InputRenderer) = m := by
        rw [← hcu]
      rw [hm']
      refine Inv_cursorAcquire m m pos h h ?_
      intro hn
      rw [hcu] at hn
      cases hn
    | none =>
      by_cases hr : m.renderer = true
      · have hcreate : lazyCreate none m.renderer m.nextId =
            (some [freshMesh m.nextId], m.nextId + 1) := by
          rw [hr]
          rfl
        rw [hcreate]
        show Inv (((cursorAcquire
          { m with cursors := some [freshMesh m.nextId], nextId := m.nextId + 1 }
            pos).toOption).getD m)
        obtain ⟨h1, h2, h3, h4, h5, h6, h7, h8⟩ := h
        have haC : m.activeCursors = 0 := h8 hcu hr
        refine Inv_cursorAcquire _ m pos ⟨h1, h2, h3, h4, h5, h6, ?_, ?_⟩
          ⟨h1, h2, h3, h4, h5, h6, h7, h8⟩ ?_
        · intro cs hcs
          simp only [Option.some.injEq] at hcs
          subst hcs
          exact ⟨by simp [haC], by simp, clonesOfHead_singleton _⟩
        · intro hn
          cases hn
        · intro hn
          cases hn
      · have hr' : m.renderer = false := by simpa using hr
        have hcreate : lazyCreate none m.renderer m.nextId = (none, m.nextId) := by
          rw [hr']
          rfl
        rw [hcreate]
        show Inv (((cursorAcquire
          { m with cursors := none, nextId := m.nextId } pos).toOption).getD m)
        have hm' : ({ m with cursors := none, nextId := m.nextId } : InputRenderer) = m := by
          rw [← hcu]
        rw [hm']
        exact Inv_cursorAcquire m m pos h h fun _ => hr'

theorem Inv_reset (m : InputRenderer) (o : Option ResetOptions) (h : Inv m) :
    Inv (reset m o) := by
  obtain ⟨h1, h2, h3, h4, h5, h6, h7, h8⟩ := h
  rw [reset_eq]
  refine ⟨h1, ?_, ?_, ?_, ?_, ?_, ?_, ?_⟩
  · intro d hd e he
    revert hd
    unfold resetFieldCtrls
    cases hc : m.controllers with
    | none =>
      intro hd
      cases hd
    | some dict =>
      by_cases hsel : (o.getD DEFAULT_RESET_OPTIONS).controllers
      · simp only [hsel, if_true, Option.some.injEq]
        intro hd
        subst hd
        rcases mem_alMapVals he with ⟨e0, he0, rfl⟩
        have hok := h2 dict hc e0 he0
        refine ⟨by simp [resetCtrl, h1], by simp [resetCtrl], ?_, ?_⟩
        · simp [resetCtrl]
          exact hok.2.2.1
        · exact clonesOfHead_map_hide _ hok.2.2.2
      · simp only [hsel, Bool.false_eq_true, if_false, Option.some.injEq]
        intro hd
        subst hd
        exact h2 dict hc e he
  · unfold resetFieldCount
    cases hl : m.lasers with
    | none => exact h3
    | some ls =>
      by_cases hsel : (o.getD DEFAULT_RESET_OPTIONS).lasers <;> simp [hsel, h1]
      exact h1 ▸ h3
  · intro ls hls
    revert hls
    unfold resetFieldPool resetFieldCount
    cases hl : m.lasers with
    | none =>
      intro hls
      cases hls
    | some ls0 =>
      by_cases hsel : (o.getD DEFAULT_RESET_OPTIONS).lasers
      · simp only [hsel, if_true, Option.some.injEq]
        intro hls
        subst hls
        have hok := h4 ls0 hl
        refine ⟨by simp, by simpa using hok.2.1, clonesOfHead_map_hide _ hok.2.2⟩
      · simp only [hsel, Bool.false_eq_true, if_false, Option.some.injEq]
        intro hls
        subst hls
        simpa [hsel] using h4 ls0 hl
  · unfold resetFieldPool resetFieldCount
    cases hl : m.lasers with
    | none =>
      intro _ hr
      exact h5 hl hr
    | some ls0 =>
      by_cases hsel : (o.getD DEFAULT_RESET_OPTIONS).lasers <;> simp [hsel]
  · unfold resetFieldCount
    cases hcu : m.cursors with
    | none => exact h6
    | some cs =>
      by_cases hsel : (o.getD DEFAULT_RESET_OPTIONS).cursors <;> simp [hsel, h1]
      exact h1 ▸ h6
  · intro cs hcs
    revert hcs
    unfold resetFieldPool resetFieldCount
    cases hcu : m.cursors with
    | none =>
      intro hcs
      cases hcs
    | some cs0 =>
      by_cases hsel : (o.getD DEFAULT_RESET_OPTIONS).cursors
      · simp only [hsel, if_true, Option.some.injEq]
        intro hcs
        subst hcs
        have hok := h7 cs0 hcu
        refine ⟨by simp, by simpa using hok.2.1, clonesOfHead_map_hide _ hok.2.2⟩
      · simp only [hsel, Bool.false_eq_true, if_false, Option.some.injEq]
        intro hcs
        subst hcs
        simpa [hsel] using h7 cs0 hcu
  · unfold resetFieldPool resetFieldCount
    cases hcu : m.cursors with
    | none =>
      intro _ hr
      exact h8 hcu hr
    | some cs0 =>
      by_cases hsel : (o.getD DEFAULT_RESET_OPTIONS).cursors <;> simp [hsel]

theorem Inv_onVisibilityChange (m : InputRenderer) (v : String) (h : Inv m) :
    Inv (onVisibilityChange m v) := by
  unfold onVisibilityChange
  split_ifs <;> exact h

theorem Inv_setRenderer (m : InputRenderer) (r : Bool) (h : Inv m) :
    Inv (setRenderer m r) := by
  obtain ⟨h1, _⟩ := h
  refine ⟨h1, ?_, ?_, ?_, ?_, ?_, ?_, ?_⟩ <;>
    simp [setRenderer, onRendererChanged, h1]

theorem Inv_step (m : InputRenderer) (op : Op) (h : Inv m) : Inv (step m op) := by
  cases op with
  | registerMesh n hdn pf => exact Inv_setControllerMesh m n hdn pf h
  | showController g hdn pf => exact Inv_addControllerStep m g hdn pf h
  | hideCtrl hdn pf => exact Inv_hideController m hdn pf h
  | showLaser pose => exact Inv_addLaserPointer m pose h
  | showCursor pos => exact Inv_addCursorStep m pos h
  | resetPools o => exact Inv_reset m o h
  | rendererChange r => exact Inv_setRenderer m r h
  | visibilityChange v => exact Inv_onVisibilityChange m v h

/-- Claim C6: after every sequence of operations from the fresh manager,
every pool (each registered controller record, the laser pool, the cursor
pool) satisfies: its active cursor is in `0 ≤ active < maxInputElements`,
its instance-list length is at least the active cursor (so in particular
after the first acquisition of a cycle), the list is nonempty, and every
instance beyond the first is a structural clone of instance 0 (same
mesh/material reference). -/
theorem pool_invariants (ops : List Op) : Inv (run ops) := by
  unfold run
  have hfold : ∀ start : InputRenderer, Inv start → Inv (ops.foldl step start) := by
    induction ops with
    | nil => exact fun s hs => hs
    | cons op rest ih =>
      intro s hs
      exact ih (step s op) (Inv_step s op hs)
  exact hfold init Inv_init

/-! ## Claim C10 — the record-level visible flag -/

theorem hideController_eq_none (m : InputRenderer) (hdn pf : String)
    (hc : m.controllers = none) : hideController m hdn pf = m := by
  simp [hideController, hc]

theorem hideController_eq_miss (m : InputRenderer) (hdn pf : String)
    (dict : List (String × Controller)) (hc : m.controllers = some dict)
    (hk : alLookup (pf ++ "_" ++ hdn) dict = none) : hideController m hdn pf = m := by
  simp [hideController, hc, hk]

theorem hideController_eq_hit (m : InputRenderer) (hdn pf : String)
    (dict : List (String × Controller)) (c : Controller) (hc : m.controllers = some dict)
    (hk : alLookup (pf ++ "_" ++ hdn) dict = some c) :
    hideController m hdn pf =
      { m with controllers := some (alInsert (pf ++ "_" ++ hdn)
          { c with recVisible := some true } dict) } := by
  simp [hideController, hc, hk]

theorem setControllerMesh_erase (m : InputRenderer) (n : SGNode) (hdn pf : String) :
    eraseRecVis (setControllerMesh m n hdn pf) =
      eraseRecVis (setControllerMesh (eraseRecVis m) n hdn pf) := by
  cases hc : m.controllers with
  | none =>
    simp [eraseRecVis, setControllerMesh, hc, alMapVals_alInsert, alMapVals, eraseCtrl_mk,
      alMapVals_eraseCtrl_eta]
  | some d =>
    simp [eraseRecVis, setControllerMesh, hc, alMapVals_alInsert, alMapVals_alMapVals,
      eraseCtrl_eraseCtrl, eraseCtrl_mk, alMapVals_eraseCtrl_eta]

theorem hideController_erase (m : InputRenderer) (hdn pf : String) :
    eraseRecVis (hideController m hdn pf) =
      eraseRecVis (hideController (eraseRecVis m) hdn pf) := by
  cases hc : m.controllers with
  | none =>
    have hc' : (eraseRecVis m).controllers = none := by simp [eraseRecVis, hc]
    rw [hideController_eq_none m hdn pf hc, hideController_eq_none _ hdn pf hc']
    exact (eraseRecVis_idem m).symm
  | some dict =>
    have hc' : (eraseRecVis m).controllers = some (alMapVals eraseCtrl dict) := by
      simp [eraseRecVis, hc]
    cases hk : alLookup (pf ++ "_" ++ hdn) dict with
    | none =>
      have hk' : alLookup (pf ++ "_" ++ hdn) (alMapVals eraseCtrl dict) = none := by
        rw [alLookup_alMapVals, hk]
        rfl
      rw [hideController_eq_miss m hdn pf dict hc hk,
        hideController_eq_miss _ hdn pf _ hc' hk']
      exact (eraseRecVis_idem m).symm
    | some c =>
      have hk' : alLookup (pf ++ "_" ++ hdn) (alMapVals eraseCtrl dict) =
          some (eraseCtrl c) := by
        rw [alLookup_alMapVals, hk]
        rfl
      rw [hideController_eq_hit m hdn pf dict c hc hk,
        hideController_eq_hit _ hdn pf _ (eraseCtrl c) hc' hk']
      simp [eraseRecVis, alMapVals_alInsert, alMapVals_alMapVals, eraseCtrl_eraseCtrl,
        eraseCtrl_mk, eraseCtrl_nodes, eraseCtrl_activeCount, alMapVals_eraseCtrl_eta]

theorem addControllerStep_erase (m : InputRenderer) (g : Nat) (hdn pf : String) :
    eraseRecVis (((addController m g hdn pf).toOption).getD m) =
      eraseRecVis (((addController (eraseRecVis m) g hdn pf).toOption).getD (eraseRecVis m)) := by
  cases hc : m.controllers with
  | none =>
    have hc' : (eraseRecVis m).controllers = none := by simp [eraseRecVis, hc]
    rw [addController, addControllerAcq_noop m g hdn pf (Or.inl hc),
      addController, addControllerAcq_noop _ g hdn pf (Or.inl hc')]
    simp only [Except.map, Except.toOption, Option.getD_some]
    exact (eraseRecVis_idem m).symm
  | some dict =>
    have hc' : (eraseRecVis m).controllers = some (alMapVals eraseCtrl dict) := by
      simp [eraseRecVis, hc]
    by_cases hb : m.blurred = true
    · have hb2 : (eraseRecVis m).blurred = true := hb
      rw [addController, addControllerAcq_noop m g hdn pf (Or.inr (Or.inl hb)),
        addController, addControllerAcq_noop _ g hdn pf (Or.inr (Or.inl hb2))]
      simp only [Except.map, Except.toOption, Option.getD_some]
      exact (eraseRecVis_idem m).symm
    · have hb' : m.blurred = false := by simpa using hb
      have hb2 : (eraseRecVis m).blurred = false := hb'
      cases hk : alLookup (pf ++ "_" ++ hdn) dict with
      | none =>
        have hk' : alLookup (pf ++ "_" ++ hdn) (alMapVals eraseCtrl dict) = none := by
          rw [alLookup_alMapVals, hk]
          rfl
        rw [addController, addControllerAcq_noop m g hdn pf (Or.inr (Or.inr ⟨dict, hc, hk⟩)),
          addController,
          addControllerAcq_noop _ g hdn pf (Or.inr (Or.inr ⟨_, hc', hk'⟩))]
        simp only [Except.map, Except.toOption, Option.getD_some]
        exact (eraseRecVis_idem m).symm
      | some c =>
        have hk' : alLookup (pf ++ "_" ++ hdn) (alMapVals eraseCtrl dict) =
            some (eraseCtrl c) := by
          rw [alLookup_alMapVals, hk]
          rfl
        by_cases hlt : c.activeCount < c.nodes.length
        · have hlt' : (eraseCtrl c).activeCount < (eraseCtrl c).nodes.length := hlt
          rw [addController, addControllerAcq_reuse m g hdn pf dict c hc hb' hk hlt,
            addController,
            addControllerAcq_reuse _ g hdn pf _ (eraseCtrl c) hc' hb2 hk' hlt']
          simp only [Except.map, Except.toOption, Option.getD_some]
          simp [eraseRecVis, alMapVals_alInsert, alMapVals_alMapVals, eraseCtrl_eraseCtrl,
            eraseCtrl_mk, eraseCtrl_nodes, eraseCtrl_activeCount, alMapVals_eraseCtrl_eta]
        · cases hn : c.nodes with
          | nil =>
            have hn' : (eraseCtrl c).nodes = [] := hn
            rw [addController, addControllerAcq_empty m g hdn pf dict c hc hb' hk hn,
              addController, addControllerAcq_empty _ g hdn pf _ _ hc' hb2 hk' hn']
            simp only [Except.map, Except.toOption, Option.getD]
            exact (eraseRecVis_idem m).symm
          | cons n0 rest =>
            have hn' : (eraseCtrl c).nodes = n0 :: rest := hn
            have hge' : ¬ (eraseCtrl c).activeCount < (eraseCtrl c).nodes.length := hlt
            rw [addController, addControllerAcq_clone m g hdn pf dict c n0 rest hc hb' hk hlt hn,
              addController,
              addControllerAcq_clone _ g hdn pf _ (eraseCtrl c) n0 rest hc' hb2 hk' hge' hn']
            simp only [Except.map, Except.toOption, Option.getD_some]
            simp [eraseRecVis, alMapVals_alInsert, alMapVals_alMapVals, eraseCtrl_eraseCtrl,
              eraseCtrl_mk, eraseCtrl_nodes, eraseCtrl_activeCount, alMapVals_eraseCtrl_eta]

theorem addLaserPointer_erase (m : InputRenderer) (pose : Nat) :
    eraseRecVis (addLaserPointer m pose) =
      eraseRecVis (addLaserPointer (eraseRecVis m) pose) := by
  have h1 : addLaserPointer (eraseRecVis m) pose =
      { addLaserPointer m pose with
        controllers := Option.map (alMapVals eraseCtrl) m.controllers } :=
    addLaserPointer_set_controllers m (Option.map (alMapVals eraseCtrl) m.controllers) pose
  rw [h1]
  simp [eraseRecVis, addLaserPointer_controllers, optMap_erase_idem, optMap_erase_comp]

theorem addCursorStep_erase (m : InputRenderer) (pos : Nat) :
    eraseRecVis (((addCursor m pos).toOption).getD m) =
      eraseRecVis (((addCursor (eraseRecVis m) pos).toOption).getD (eraseRecVis m)) := by
  have h1 : addCursor (eraseRecVis m) pos =
      (addCursor m pos).map
        (fun s => { s with controllers := Option.map (alMapVals eraseCtrl) m.controllers }) :=
    addCursor_set_controllers m (Option.map (alMapVals eraseCtrl) m.controllers) pos
  rw [h1]
  cases hres : addCursor m pos with
  | error e =>
    simp only [Except.map, Except.toOption, Option.getD]
    exact (eraseRecVis_idem m).symm
  | ok s =>
    have hsc : s.controllers = m.controllers := by
      have h2 := addCursor_set_controllers m m.controllers pos
      have he : ({ m with controllers := m.controllers } : InputRenderer) = m := rfl
      rw [he, hres] at h2
      simp only [Except.map, Except.ok.injEq] at h2
      conv_lhs => rw [h2]
    simp only [Except.map, Except.toOption, Option.getD_some]
    simp [eraseRecVis, hsc, optMap_erase_idem, optMap_erase_comp]

theorem resetFieldCtrls_erase (b : Bool) (x : Option (List (String × Controller))) :
    Option.map (alMapVals eraseCtrl) (resetFieldCtrls b x) =
      resetFieldCtrls b (Option.map (alMapVals eraseCtrl) x) := by
  cases x <;> cases b <;>
    simp [resetFieldCtrls, alMapVals_alMapVals, eraseCtrl_resetCtrl]

theorem reset_erase (m : InputRenderer) (o : Option ResetOptions) :
    eraseRecVis (reset m o) = eraseRecVis (reset (eraseRecVis m) o) := by
  rw [reset_eq m o, reset_eq]
  simp [eraseRecVis, ← resetFieldCtrls_erase, optMap_erase_idem, optMap_erase_comp]

theorem setRenderer_erase (m : InputRenderer) (r : Bool) :
    eraseRecVis (setRenderer m r) = eraseRecVis (setRenderer (eraseRecVis m) r) := by
  simp [eraseRecVis, setRenderer, onRendererChanged]

theorem onVisibilityChange_erase (m : InputRenderer) (v : String) :
    eraseRecVis (onVisibilityChange m v) =
      eraseRecVis (onVisibilityChange (eraseRecVis m) v) := by
  unfold onVisibilityChange
  split_ifs <;> simp [eraseRecVis, optMap_erase_comp]

theorem step_erase (m : InputRenderer) (op : Op) :
    eraseRecVis (step m op) = eraseRecVis (step (eraseRecVis m) op) := by
  cases op with
  | registerMesh n hdn pf => exact setControllerMesh_erase m n hdn pf
  | showController g hdn pf => exact addControllerStep_erase m g hdn pf
  | hideCtrl hdn pf => exact hideController_erase m hdn pf
  | showLaser pose => exact addLaserPointer_erase m pose
  | showCursor pos => exact addCursorStep_erase m pos
  | resetPools o => exact reset_erase m o
  | rendererChange r => exact setRenderer_erase m r
  | visibilityChange v => exact onVisibilityChange_erase m v

/-- Claim C10: for a registered key, `hideController` leaves every node
instance's visibility and transform and the pool's active count unchanged —
the state seen through `eraseRecVis` (everything except the record-level
`visible` flags) is untouched — and its only effect is to set the record
object's `visible` field to true; moreover no operation's observable
behaviour depends on those record-level flags (no other operation reads
them). -/
theorem hideController_only_marks_record (m : InputRenderer) (hdn pf : String)
    (dict : List (String × Controller)) (c : Controller)
    (hc : m.controllers = some dict)
    (hk : alLookup (pf ++ "_" ++ hdn) dict = some c) :
    eraseRecVis (hideController m hdn pf) = eraseRecVis m ∧
    alLookup (pf ++ "_" ++ hdn) ((hideController m hdn pf).controllers.getD []) =
      some { nodes := c.nodes, activeCount := c.activeCount, recVisible := some true } ∧
    (∀ m' op, eraseRecVis (step m' op) = eraseRecVis (step (eraseRecVis m') op)) := by
  refine ⟨?_, ?_, fun m' op => step_erase m' op⟩
  · rw [hideController_eq_hit m hdn pf dict c hc hk]
    have hins : alMapVals eraseCtrl
        (alInsert (pf ++ "_" ++ hdn) { c with recVisible := some true } dict) =
        alMapVals eraseCtrl dict := by
      rw [alMapVals_alInsert]
      have he : eraseCtrl { c with recVisible := some true } = eraseCtrl c := rfl
      rw [he]
      refine alInsert_lookup_self _ _ ?_
      rw [alLookup_alMapVals, hk]
      rfl
    simp [eraseRecVis, hc, hins]
  · rw [hideController_eq_hit m hdn pf dict c hc hk]
    simp [alLookup_alInsert_self]

/-- Witness for C10: the pool registered for `(profileA, left)` on a fresh
manager. -/
theorem hideController_only_marks_record_witness :
    ((setControllerMesh init nodeA "left" "profileA").controllers =
        some [("profileA_left",
          { nodes := [{ nodeA with visible := false }], activeCount := 0,
            recVisible := none })] ∧
      alLookup ("profileA" ++ "_" ++ "left")
          [("profileA_left",
            { nodes := [{ nodeA with visible := false }], activeCount := 0,
              recVisible := none })] =
        some { nodes := [{ nodeA with visible := false }], activeCount := 0,
               recVisible := none }) ∧
    eraseRecVis (hideController (setControllerMesh init nodeA "left" "profileA")
        "left" "profileA") =
      eraseRecVis (setControllerMesh init nodeA "left" "profileA") :=
  ⟨⟨rfl, rfl⟩,
    (hideController_only_marks_record (setControllerMesh init nodeA "left" "profileA")
      "left" "profileA" _ _ rfl rfl).1⟩

end InputRendererModel
